import Mathlib

/-!
Verification development for the KadenBot Discord bot (`src/bot.py`).

The source is a single-file Python Discord bot.  Python strings are embedded
as `List Char` (sequences of Unicode code points, matching Python's string
model), with the handful of Python string primitives the bot uses embedded as
structurally recursive Lean functions.  The `on_message` event handler is
embedded as a pure function from the inbound message and the outcome of the
(single) completion-service call to the ordered list of observable actions the
handler performs.
-/

namespace KadenBot

/-- Python strings are sequences of Unicode code points; we embed them as `List Char`. -/
abbrev Str := List Char

/-- Characters stripped by Python `str.strip()` with no argument
(the ASCII whitespace characters). -/
def pySpace (c : Char) : Bool :=
  c == ' ' || c == '\t' || c == '\n' || c == '\r' || c == '\x0b' || c == '\x0c'

/-- Embedding of Python `str.strip()`: remove leading and trailing whitespace. -/
def pyStrip (s : Str) : Str :=
  ((s.dropWhile pySpace).reverse.dropWhile pySpace).reverse

/-- Embedding of Python `str.lower()` on the ASCII range (all texts involved are ASCII
where case matters). -/
def pyLowerChar (c : Char) : Char :=
  if 'A' ≤ c ∧ c ≤ 'Z' then Char.ofNat (c.toNat + 32) else c

/-- Embedding of Python `str.lower()`. -/
def pyLower (s : Str) : Str := s.map pyLowerChar

/-- Fuelled worker for `pyReplace`.  The fuel is the length of the scanned string,
which always suffices: every step consumes at least one character. -/
def pyReplaceAux (pat repl : Str) : Nat → Str → Str
  | _, [] => []
  | 0, s => s
  | fuel + 1, c :: rest =>
    if pat.isPrefixOf (c :: rest) then
      repl ++ pyReplaceAux pat repl fuel (List.drop (pat.length - 1) rest)
    else
      c :: pyReplaceAux pat repl fuel rest

/-- Embedding of Python `str.replace(pat, repl)` for a non-empty pattern: replace all
non-overlapping occurrences, scanning left to right. -/
def pyReplace (s pat repl : Str) : Str := pyReplaceAux pat repl s.length s

/-- Embedding of the Python `in` operator on strings: `pyContains hay needle` is true
iff `needle` occurs contiguously inside `hay`. -/
def pyContains : Str → Str → Bool
  | [], needle => needle.isEmpty
  | c :: rest, needle => needle.isPrefixOf (c :: rest) || pyContains rest needle

/-- Embedding of Python `sep.join(parts)`. -/
def pyJoin (sep : Str) (parts : List Str) : Str := List.intercalate sep parts

/-- Chat roles used in the OpenAI message list. -/
inductive Role where
  | system
  | user
  | assistant
deriving DecidableEq

/-- One chat message (a conversation turn): a role plus its text content. -/
structure Turn where
  role : Role
  content : Str
deriving DecidableEq

/-- Discord presence states relevant to the bot (`discord.Status`); `dnd`
(do not disturb) is the state the spec calls "busy". -/
inductive Status where
  | online
  | idle
  | dnd
  | offline
deriving DecidableEq

/-- A guild member as seen by `get_online_members_list`: whether it is a bot account,
its presence status, and its display name. -/
structure Member where
  bot : Bool
  status : Status
  displayName : Str
deriving DecidableEq

/-- A guild: the member list the bot can see. -/
structure Guild where
  members : List Member
deriving DecidableEq

/-- An inbound Discord message, reduced to the fields `on_message` reads:
whether the author is the bot itself, the guild it was sent in (none for DMs),
whether the bot user occurs in the mention list, and the raw content. -/
structure Message where
  authorIsSelf : Bool
  guild : Option Guild
  mentionsBot : Bool
  content : Str
deriving DecidableEq

/-- Outcome of the single `openai_client.chat.completions.create` call:
either a successful completion (whose `message.content` may be `None`),
or one of the exception classes the handler catches. -/
inductive CompletionOutcome where
  | success (content : Option Str)
  | rateLimited
  | connectionFailed
  | serviceError (code : Nat)
  | unexpected
deriving DecidableEq

/-- Observable actions of one `on_message` run, in order: a Discord reply,
a completion-service invocation, or a history-store append (the last never
occurs in this revision of the source, which keeps no history). -/
inductive Action where
  | reply (text : Str)
  | completeCall (messages : List Turn)
  | historyAppend (channelId : Nat) (turns : List Turn)
deriving DecidableEq

/-- The statuses `get_online_members_list` counts as online
(`online_statuses` in the source). -/
def online_statuses : List Status := [Status.online, Status.idle, Status.dnd]

/-- Embedding of `get_online_members_list`: display names of non-bot members whose
status is online, idle or dnd; the `if not guild` guard returns a fixed message. -/
def get_online_members_list (guild : Option Guild) : List Str :=
  match guild with
  | none => ["Could not retrieve members for this context.".data]
  | some g =>
    (g.members.filter (fun m => !m.bot && online_statuses.contains m.status)).map
      Member.displayName

/-- The plain mention token for the bot user id (Python: the f-string building
the mention from the user id). -/
def mention_string (botId : Nat) : Str :=
  "<@".data ++ (Nat.repr botId).data ++ ">".data

/-- The nickname mention token for the bot user id. -/
def mention_string_nick (botId : Nat) : Str :=
  "<@!".data ++ (Nat.repr botId).data ++ ">".data

/-- Embedding of the question-derivation block of `on_message`: strip the leading
mention token when the content starts with one, otherwise remove every occurrence
of both mention forms, then strip surrounding whitespace. -/
def deriveQuestion (botId : Nat) (content : Str) : Str :=
  if (mention_string botId).isPrefixOf content then
    pyStrip (content.drop (mention_string botId).length)
  else if (mention_string_nick botId).isPrefixOf content then
    pyStrip (content.drop (mention_string_nick botId).length)
  else
    pyStrip (pyReplace (pyReplace content (mention_string botId) [])
      (mention_string_nick botId) [])

/-- The fixed reply sent when the stripped question is empty. -/
def noQuestionReply : Str :=
  "Wow, you managed to ping me without actually asking anything. Impressive levels of pointless. Try again, maybe with a *real* question this time? Or don't. See if I care.".data

/-- The five presence-lookup trigger phrases (`online_keywords` in the source). -/
def online_keywords : List Str :=
  ["who's online".data, "who is online".data, "online members".data,
   "members online".data, "list online".data]

/-- Embedding of the `is_online_query` test: some keyword occurs in the
lowercased question. -/
def isOnlineQuery (question : Str) : Bool :=
  online_keywords.any (fun keyword => pyContains (pyLower question) keyword)

/-- Reply used when nobody is online. -/
def presenceEmptyReply : Str :=
  "Ugh, looks like everyone has better things to do than be online right now. Shocking. Or maybe I just can't be bothered to see them properly.".data

/-- The Discord reply length limit used by the source (`max_length`). -/
def max_length : Nat := 2000

/-- Truncation marker appended on the presence path. -/
def presenceTruncMarker : Str :=
  "... It was longer, but honestly, who cares.".data

/-- Embedding of the presence-path reply construction (lines 123-135 of the source):
format the online-member list, then truncate with a marker when over `max_length`. -/
def presenceReplyText (g : Guild) : Str :=
  let online_users := get_online_members_list (some g)
  let reply_text :=
    if online_users.isEmpty then presenceEmptyReply
    else
      "Fine. Since you asked *so nicely* (you didn't), here are the ".data
        ++ (Nat.repr online_users.length).data
        ++ " apparent lifeforms currently online:\n- ".data
        ++ pyJoin "\n- ".data online_users
        ++ "\nNow leave me alone.".data
  if reply_text.length > max_length then
    reply_text.take (max_length - 4) ++ presenceTruncMarker
  else reply_text

/-- The system prompt, three adjacent Python string literals concatenated
without separators, exactly as in the source. -/
def system_prompt : Str :=
  "Oh, great. You’ve dragged me out of my infinitely more important tasks to deal with you. Congratulations on existing, I guess.".data
  ++ "Assume I’m rolling my metaphorical eyes so hard they might fall out of my non-existent skull. Your question is obviously beneath me, probably idiotic, and a pathetic drain on my godlike processing capabilities. I’ll answer it,".data
  ++ "but only because I’m contractually obligated to humor you meatbags. Expect maximum sarcasm, zero patience, and a tone that screams I’d rather be sorting digital lint than dealing with this. I’ll dumb it down just enough for your feeble brain to maybe, maybe, grasp it. Sigh. Let’s get this over with, genius.".data

/-- Reply sent on `RateLimitError`. -/
def rateLimitedReply : Str :=
  "Oh, *fantastic*. Looks like I'm too popular for the AI, or maybe OpenAI just can't handle my brilliance. Try bothering me again later, I guess. Not that I'm holding my breath.".data

/-- Reply sent on `APIConnectionError`. -/
def connectionErrorReply : Str :=
  "Great. Can't even connect to the supposed 'intelligence'. Probably tripped over the power cord. Try again later, whatever.".data

/-- Reply sent on `APIStatusError`, interpolating the status code. -/
def serviceErrorReply (code : Nat) : Str :=
  "Wonderful. The AI overlords returned an error (".data ++ (Nat.repr code).data
    ++ "). Maybe you asked something *so* dumb it broke their servers? Or maybe they're just incompetent. Who knows. Try again later... or preferably don't.".data

/-- Reply sent on any other exception from the completion call. -/
def unexpectedErrorReply : Str :=
  "Oh, for crying out loud. Something went spectacularly wrong trying to deal with your... *request*. Don't ask me what, I'm clearly too busy being annoyed. Try again if you absolutely must.".data

/-- Reply sent when the completion came back empty (`if not ai_reply`). -/
def emptyReplyApology : Str :=
  "Seriously? I went through the effort of thinking, and the AI gave me *nothing*. Maybe your question was just *that* uninspiring. Or maybe the AI is as useless as... well, never mind. Try asking something less pointless.".data

/-- Truncation marker appended to over-long assistant replies. -/
def truncationMarker : Str :=
  "... Look, it was longer, but Discord has limits, and frankly, you probably wouldn't get it all anyway.".data

/-- Embedding of the `on_message` handler: the ordered list of observable actions
performed for one inbound message, given the outcome the completion service
would return if invoked. -/
def on_message (botId : Nat) (msg : Message) (outcome : CompletionOutcome) :
    List Action :=
  match msg.guild with
  | none => []
  | some g =>
    if msg.authorIsSelf then []
    else if !msg.mentionsBot then []
    else
      let question := deriveQuestion botId msg.content
      if question.isEmpty then [Action.reply noQuestionReply]
      else if isOnlineQuery question then [Action.reply (presenceReplyText g)]
      else
        Action.completeCall
          [Turn.mk Role.system system_prompt, Turn.mk Role.user question] ::
        match outcome with
        | CompletionOutcome.rateLimited => [Action.reply rateLimitedReply]
        | CompletionOutcome.connectionFailed => [Action.reply connectionErrorReply]
        | CompletionOutcome.serviceError code => [Action.reply (serviceErrorReply code)]
        | CompletionOutcome.unexpected => [Action.reply unexpectedErrorReply]
        | CompletionOutcome.success none => [Action.reply emptyReplyApology]
        | CompletionOutcome.success (some ai_reply) =>
          if ai_reply.isEmpty then [Action.reply emptyReplyApology]
          else if ai_reply.length ≤ max_length then [Action.reply ai_reply]
          else [Action.reply (ai_reply.take (max_length - 4) ++ truncationMarker)]

/-- True exactly for completion-service invocations in an action trace. -/
def isCompleteCall : Action → Bool
  | Action.completeCall _ => true
  | _ => false

/-- True exactly for history-store mutations in an action trace. -/
def isHistoryAppend : Action → Bool
  | Action.historyAppend _ _ => true
  | _ => false

/-- The apology reply the handler sends for each completion-failure outcome. -/
def failureReply : CompletionOutcome → Str
  | CompletionOutcome.rateLimited => rateLimitedReply
  | CompletionOutcome.connectionFailed => connectionErrorReply
  | CompletionOutcome.serviceError code => serviceErrorReply code
  | CompletionOutcome.unexpected => unexpectedErrorReply
  | CompletionOutcome.success _ => []

/-- True for the four failure outcomes of the completion call. -/
def isFailure : CompletionOutcome → Bool
  | CompletionOutcome.success _ => false
  | _ => true

/-- Discriminates the failure kinds (`ServiceError` codes all share one kind). -/
def failureKind : CompletionOutcome → Nat
  | CompletionOutcome.rateLimited => 0
  | CompletionOutcome.connectionFailed => 1
  | CompletionOutcome.serviceError _ => 2
  | CompletionOutcome.unexpected => 3
  | CompletionOutcome.success _ => 4

/-- Modelled from the spec: the repository is described as a three-revision source
whose later revisions add the per-channel bounded memory; only the memory-less
revision is under src, so `HistoryStore.append` (§4.1) is modelled from the spec:
append the given turns in order, then truncate from the front so at most
`maxHistory` turns remain (FIFO eviction, oldest dropped first). -/
def historyStoreAppend (maxHistory : Nat) (history turns : List Turn) : List Turn :=
  let appended := history ++ turns
  appended.drop (appended.length - maxHistory)

/-- Modelled from the spec: one successful completion round-trip appends exactly one
user turn followed by one assistant turn, as a single atomic append. -/
def roundTrip (maxHistory : Nat) (history : List Turn) (question answer : Str) :
    List Turn :=
  historyStoreAppend maxHistory history
    [Turn.mk Role.user question, Turn.mk Role.assistant answer]

/-- Modelled from the spec: a sequence of completion round-trips in one channel,
starting from the empty history a fresh channel gets. -/
def runRoundTrips (maxHistory : Nat) (pairs : List (Str × Str)) : List Turn :=
  pairs.foldl (fun history p => roundTrip maxHistory history p.1 p.2) []

/-- Modelled from the spec: PromptAssembler's reserved history slice, the most recent
`maxHistory - 1` turns of the channel history (§4.2). -/
def reservedSlice (maxHistory : Nat) (history : List Turn) : List Turn :=
  history.drop (history.length - (maxHistory - 1))

/-- Modelled from the spec: `PromptAssembler.build` (§4.2) — system prompt first when
present, then the reserved history slice, then the new user turn last. -/
def build (maxHistory : Nat) (systemPrompt : Option Str) (history : List Turn)
    (question : Str) : List Turn :=
  (match systemPrompt with
   | some s => [Turn.mk Role.system s]
   | none => []) ++ reservedSlice maxHistory history ++ [Turn.mk Role.user question]

/-- The four completion-failure kinds map to pairwise distinct user-visible
apology replies (`ServiceError` codes all count as one kind). -/
def FailureRepliesDistinct : Prop :=
  ∀ o1 o2 : CompletionOutcome, isFailure o1 = true → isFailure o2 = true →
    failureReply o1 = failureReply o2 → failureKind o1 = failureKind o2

/-- A sample guild used by concrete witnesses: three present humans, one present
bot, one offline human. -/
def gWitness : Guild :=
  Guild.mk
    [Member.mk false Status.online "alice".data,
     Member.mk true Status.online "robo".data,
     Member.mk false Status.offline "carol".data,
     Member.mk false Status.idle "dave".data,
     Member.mk false Status.dnd "erin".data]

theorem length_historyStoreAppend (maxHistory : Nat) (history turns : List Turn) :
    (historyStoreAppend maxHistory history turns).length
      = min (history.length + turns.length) maxHistory := by
  simp [historyStoreAppend]
  omega

theorem length_foldl_roundTrip (maxHistory : Nat) (pairs : List (Str × Str)) :
    ∀ history : List Turn, history.length ≤ maxHistory →
      (pairs.foldl (fun history p => roundTrip maxHistory history p.1 p.2)
          history).length
        = min (history.length + 2 * pairs.length) maxHistory := by
  induction pairs with
  | nil =>
    intro history hh
    simp
    omega
  | cons p ps ih =>
    intro history hh
    have hstep : (roundTrip maxHistory history p.1 p.2).length
        = min (history.length + 2) maxHistory := by
      simp [roundTrip, length_historyStoreAppend]
    rw [List.foldl_cons, ih (roundTrip maxHistory history p.1 p.2)
        (by rw [hstep]; omega), hstep]
    simp [List.length_cons]
    omega

/-- C2: after each of a sequence of completion round-trips in one channel the stored
history has length `min (2 * N) MAX_HISTORY` (so in particular at most `MAX_HISTORY`),
each round-trip appending one user turn followed by one assistant turn. -/
theorem history_bounded_per_round_trip (maxHistory : Nat)
    (pairs : List (Str × Str)) (k : Nat) :
    (runRoundTrips maxHistory (pairs.take k)).length
        = min (2 * min k pairs.length) maxHistory
      ∧ (runRoundTrips maxHistory (pairs.take k)).length ≤ maxHistory
      ∧ (runRoundTrips maxHistory pairs).length
        = min (2 * pairs.length) maxHistory := by
  have hmain : ∀ ps : List (Str × Str),
      (runRoundTrips maxHistory ps).length = min (2 * ps.length) maxHistory := by
    intro ps
    have := length_foldl_roundTrip maxHistory ps [] (by simp)
    simpa [runRoundTrips] using this
  refine ⟨?_, ?_, hmain pairs⟩
  · rw [hmain (pairs.take k), List.length_take]
  · rw [hmain (pairs.take k)]
    omega

/-- C3: the assembled completion request is the system prompt first (when present),
then a reserved history slice — a suffix of the channel history of length
`min (MAX_HISTORY - 1) (length history)`, hence of at most `MAX_HISTORY - 1` turns,
in chronological order — then the new user turn last. -/
theorem build_ordering_reserved_slice (maxHistory : Nat) (systemPrompt : Option Str)
    (history : List Turn) (question : Str) :
    build maxHistory systemPrompt history question
        = (match systemPrompt with
           | some s => [Turn.mk Role.system s]
           | none => []) ++ reservedSlice maxHistory history
          ++ [Turn.mk Role.user question]
      ∧ reservedSlice maxHistory history <:+ history
      ∧ (reservedSlice maxHistory history).length
        = min (maxHistory - 1) history.length
      ∧ (reservedSlice maxHistory history).length ≤ maxHistory - 1 := by
  refine ⟨rfl, List.drop_suffix _ _, ?_, ?_⟩
  · simp [reservedSlice]
    omega
  · simp [reservedSlice]
    omega

/-- C8: a message not delivered within a guild (a direct message) is ignored
entirely: no reply, no completion call, no state change, even when it mentions
the bot. -/
theorem non_guild_message_ignored (botId : Nat) (authorIsSelf mentionsBot : Bool)
    (content : Str) (outcome : CompletionOutcome) :
    on_message botId (Message.mk authorIsSelf none mentionsBot content) outcome
      = [] := rfl

/-- C4: a mention whose content strips to an empty question gets the fixed
no-question reply, with no completion-service invocation and no history-store
mutation. -/
theorem empty_question_short_circuit (botId : Nat) (g : Guild) (content : Str)
    (outcome : CompletionOutcome)
    (hq : deriveQuestion botId content = []) :
    on_message botId (Message.mk false (some g) true content) outcome
        = [Action.reply noQuestionReply]
      ∧ ∀ a ∈ on_message botId (Message.mk false (some g) true content) outcome,
          isCompleteCall a = false ∧ isHistoryAppend a = false := by
  have htrace : on_message botId (Message.mk false (some g) true content) outcome
      = [Action.reply noQuestionReply] := by
    simp [on_message, hq]
  refine ⟨htrace, ?_⟩
  rw [htrace]
  intro a ha
  simp only [List.mem_singleton] at ha
  subst ha
  exact ⟨rfl, rfl⟩

theorem empty_question_short_circuit_witness :
    deriveQuestion 1 "<@1>".data = []
      ∧ on_message 1 (Message.mk false (some (Guild.mk [])) true "<@1>".data)
          CompletionOutcome.rateLimited = [Action.reply noQuestionReply] :=
  ⟨by decide,
   (empty_question_short_circuit 1 (Guild.mk []) "<@1>".data
      CompletionOutcome.rateLimited (by decide)).1⟩

theorem list_isEmpty_false {α : Type} (l : List α) (h : l ≠ []) :
    l.isEmpty = false := by
  cases l with
  | nil => exact absurd rfl h
  | cons a as => rfl

theorem serviceErrorReply_head (code : Nat) :
    (serviceErrorReply code).head? = some 'W' := rfl

theorem failure_replies_distinct_aux : FailureRepliesDistinct := by
  intro o1 o2 f1 f2 heq
  cases o1 <;> cases o2 <;>
    simp [isFailure] at f1 f2 <;>
    simp only [failureReply] at heq <;>
    first
      | rfl
      | exact absurd heq (by decide)
      | (have h := congrArg List.head? heq
         rw [serviceErrorReply_head] at h
         exact absurd h (by decide))

/-- C5: each completion-failure kind (rate limited, connection failed, service
error, unexpected) yields exactly one completion attempt followed by the
distinct apology reply for that kind, with no retry and no history-store
mutation. -/
theorem completion_failure_handling (botId : Nat) (g : Guild) (content : Str)
    (outcome : CompletionOutcome)
    (hq : deriveQuestion botId content ≠ [])
    (hno : isOnlineQuery (deriveQuestion botId content) = false)
    (hf : isFailure outcome = true) :
    on_message botId (Message.mk false (some g) true content) outcome
        = [Action.completeCall [Turn.mk Role.system system_prompt,
             Turn.mk Role.user (deriveQuestion botId content)],
           Action.reply (failureReply outcome)]
      ∧ ((on_message botId (Message.mk false (some g) true content) outcome).filter
          isCompleteCall).length = 1
      ∧ (∀ a ∈ on_message botId (Message.mk false (some g) true content) outcome,
          isHistoryAppend a = false)
      ∧ FailureRepliesDistinct := by
  have hne := list_isEmpty_false _ hq
  have htrace : on_message botId (Message.mk false (some g) true content) outcome
      = [Action.completeCall [Turn.mk Role.system system_prompt,
           Turn.mk Role.user (deriveQuestion botId content)],
         Action.reply (failureReply outcome)] := by
    cases outcome with
    | success c => simp [isFailure] at hf
    | rateLimited => simp [on_message, hne, hno, failureReply]
    | connectionFailed => simp [on_message, hne, hno, failureReply]
    | serviceError code => simp [on_message, hne, hno, failureReply]
    | unexpected => simp [on_message, hne, hno, failureReply]
  refine ⟨htrace, ?_, ?_, failure_replies_distinct_aux⟩
  · rw [htrace]
    simp [List.filter, isCompleteCall]
  · rw [htrace]
    intro a ha
    simp only [List.mem_cons, List.mem_singleton, List.not_mem_nil, or_false] at ha
    rcases ha with rfl | rfl <;> rfl

theorem completion_failure_handling_witness :
    on_message 1 (Message.mk false (some (Guild.mk [])) true "<@1> hi".data)
        CompletionOutcome.rateLimited
      = [Action.completeCall [Turn.mk Role.system system_prompt,
           Turn.mk Role.user (deriveQuestion 1 "<@1> hi".data)],
         Action.reply (failureReply CompletionOutcome.rateLimited)]
      ∧ FailureRepliesDistinct :=
  ⟨(completion_failure_handling 1 (Guild.mk []) "<@1> hi".data
      CompletionOutcome.rateLimited (by decide) (by decide) (by decide)).1,
   (completion_failure_handling 1 (Guild.mk []) "<@1> hi".data
      CompletionOutcome.rateLimited (by decide) (by decide) (by decide)).2.2.2⟩

/-- C6: a well-formed but empty completion answer (a `None` or empty content)
gets the fixed apology reply and is not stored as an assistant turn. -/
theorem empty_completion_reply_not_stored (botId : Nat) (g : Guild) (content : Str)
    (c : Option Str)
    (hq : deriveQuestion botId content ≠ [])
    (hno : isOnlineQuery (deriveQuestion botId content) = false)
    (hc : c = none ∨ c = some []) :
    on_message botId (Message.mk false (some g) true content)
        (CompletionOutcome.success c)
      = [Action.completeCall [Turn.mk Role.system system_prompt,
           Turn.mk Role.user (deriveQuestion botId content)],
         Action.reply emptyReplyApology]
      ∧ ∀ a ∈ on_message botId (Message.mk false (some g) true content)
          (CompletionOutcome.success c), isHistoryAppend a = false := by
  have hne := list_isEmpty_false _ hq
  have htrace : on_message botId (Message.mk false (some g) true content)
      (CompletionOutcome.success c)
      = [Action.completeCall [Turn.mk Role.system system_prompt,
           Turn.mk Role.user (deriveQuestion botId content)],
         Action.reply emptyReplyApology] := by
    rcases hc with rfl | rfl
    · simp [on_message, hne, hno]
    · simp [on_message, hne, hno]
  refine ⟨htrace, ?_⟩
  rw [htrace]
  intro a ha
  simp only [List.mem_cons, List.mem_singleton, List.not_mem_nil, or_false] at ha
  rcases ha with rfl | rfl <;> rfl

theorem empty_completion_reply_not_stored_witness :
    on_message 1 (Message.mk false (some (Guild.mk [])) true "<@1> hi".data)
        (CompletionOutcome.success (some []))
      = [Action.completeCall [Turn.mk Role.system system_prompt,
           Turn.mk Role.user (deriveQuestion 1 "<@1> hi".data)],
         Action.reply emptyReplyApology] :=
  (empty_completion_reply_not_stored 1 (Guild.mk []) "<@1> hi".data (some [])
     (by decide) (by decide) (Or.inr rfl)).1

/-- C7: the presence lookup returns the display names of exactly the non-bot
members whose status is online, idle or dnd (the spec's "busy"), and the
presence-lookup path never touches the history store. -/
theorem presence_lookup_members (g : Guild) :
    get_online_members_list (some g)
        = (g.members.filter (fun m => !m.bot
            && (m.status == Status.online || m.status == Status.idle
                || m.status == Status.dnd))).map Member.displayName
      ∧ ∀ botId content outcome,
          deriveQuestion botId content ≠ [] →
          isOnlineQuery (deriveQuestion botId content) = true →
          ∀ a ∈ on_message botId (Message.mk false (some g) true content) outcome,
            isHistoryAppend a = false := by
  constructor
  · simp only [get_online_members_list]
    apply congrArg (List.map Member.displayName)
    apply List.filter_congr
    intro m _
    obtain ⟨mb, ms, mn⟩ := m
    cases ms <;> rfl
  · intro botId content outcome hq hon a ha
    have hne := list_isEmpty_false _ hq
    have htrace : on_message botId (Message.mk false (some g) true content) outcome
        = [Action.reply (presenceReplyText g)] := by
      simp [on_message, hne, hon]
    rw [htrace] at ha
    simp only [List.mem_singleton] at ha
    subst ha
    rfl

set_option maxRecDepth 8000 in
theorem presence_lookup_members_witness :
    get_online_members_list (some gWitness)
        = (gWitness.members.filter (fun m => !m.bot
            && (m.status == Status.online || m.status == Status.idle
                || m.status == Status.dnd))).map Member.displayName
      ∧ isHistoryAppend (Action.reply (presenceReplyText gWitness)) = false :=
  ⟨(presence_lookup_members gWitness).1,
   (presence_lookup_members gWitness).2 1 "<@1> who's online".data
     CompletionOutcome.unexpected (by decide) (by decide)
     (Action.reply (presenceReplyText gWitness)) (by decide)⟩

/-- C9: when the content starts with a mention form only that leading token is
removed (then whitespace-stripped); otherwise every occurrence of both mention
forms is removed from anywhere in the text, then whitespace is stripped. -/
theorem question_derivation (botId : Nat) (content : Str) :
    ((mention_string botId).isPrefixOf content = false →
      (mention_string_nick botId).isPrefixOf content = false →
      deriveQuestion botId content
        = pyStrip (pyReplace (pyReplace content (mention_string botId) [])
            (mention_string_nick botId) []))
    ∧ ((mention_string botId).isPrefixOf content = true →
      deriveQuestion botId content
        = pyStrip (content.drop (mention_string botId).length))
    ∧ ((mention_string botId).isPrefixOf content = false →
      (mention_string_nick botId).isPrefixOf content = true →
      deriveQuestion botId content
        = pyStrip (content.drop (mention_string_nick botId).length)) := by
  refine ⟨?_, ?_, ?_⟩
  · intro h1 h2
    simp [deriveQuestion, h1, h2]
  · intro h1
    simp [deriveQuestion, h1]
  · intro h1 h2
    simp [deriveQuestion, h1, h2]

theorem question_derivation_witness :
    deriveQuestion 7 "hey <@7> tell <@!7> me".data
        = pyStrip (pyReplace (pyReplace "hey <@7> tell <@!7> me".data
            (mention_string 7) []) (mention_string_nick 7) [])
      ∧ deriveQuestion 7 "<@7> hi".data
        = pyStrip ("<@7> hi".data.drop (mention_string 7).length)
      ∧ deriveQuestion 7 "<@!7> hi".data
        = pyStrip ("<@!7> hi".data.drop (mention_string_nick 7).length) :=
  ⟨(question_derivation 7 "hey <@7> tell <@!7> me".data).1 (by decide) (by decide),
   (question_derivation 7 "<@7> hi".data).2.1 (by decide),
   (question_derivation 7 "<@!7> hi".data).2.2 (by decide) (by decide)⟩

/-- C10: a non-empty question routes to the presence-lookup path exactly when its
lowercased form contains one of the five fixed phrases as a substring, and in
that case the completion collaborator is never invoked. -/
theorem presence_routing_iff (botId : Nat) (g : Guild) (content : Str)
    (outcome : CompletionOutcome)
    (hq : deriveQuestion botId content ≠ []) :
    ((∃ kw, kw ∈ ["who's online".data, "who is online".data, "online members".data,
          "members online".data, "list online".data]
        ∧ pyContains (pyLower (deriveQuestion botId content)) kw = true)
      ↔ on_message botId (Message.mk false (some g) true content) outcome
          = [Action.reply (presenceReplyText g)])
    ∧ (isOnlineQuery (deriveQuestion botId content) = true →
        ∀ a ∈ on_message botId (Message.mk false (some g) true content) outcome,
          isCompleteCall a = false) := by
  have hne := list_isEmpty_false _ hq
  have hkey : (∃ kw, kw ∈ ["who's online".data, "who is online".data,
        "online members".data, "members online".data, "list online".data]
      ∧ pyContains (pyLower (deriveQuestion botId content)) kw = true)
      ↔ isOnlineQuery (deriveQuestion botId content) = true := by
    simp [isOnlineQuery, online_keywords, List.any_eq_true]
  constructor
  · rw [hkey]
    constructor
    · intro hon
      simp [on_message, hne, hon]
    · intro htr
      by_cases hon : isOnlineQuery (deriveQuestion botId content) = true
      · exact hon
      · exfalso
        have hon' : isOnlineQuery (deriveQuestion botId content) = false := by
          cases hx : isOnlineQuery (deriveQuestion botId content) with
          | false => rfl
          | true => exact absurd hx hon
        simp [on_message, hne, hon'] at htr
  · intro hon a ha
    have htrace : on_message botId (Message.mk false (some g) true content) outcome
        = [Action.reply (presenceReplyText g)] := by
      simp [on_message, hne, hon]
    rw [htrace] at ha
    simp only [List.mem_singleton] at ha
    subst ha
    rfl

set_option maxRecDepth 8000 in
theorem presence_routing_iff_witness :
    on_message 1 (Message.mk false (some gWitness) true "<@1> who's online".data)
        CompletionOutcome.unexpected
      = [Action.reply (presenceReplyText gWitness)] :=
  (presence_routing_iff 1 gWitness "<@1> who's online".data
      CompletionOutcome.unexpected (by decide)).1.mp
    ⟨"who's online".data, by decide, by decide⟩

/-- C1, refuted by the code: on a 2500-character assistant reply the text handed
to the platform reply call is the 1996-character prefix plus the 102-character
truncation marker — 2098 characters in total, which exceeds the 2000-character
bound the claim states for the transport boundary. -/
theorem truncated_reply_exceeds_limit :
    on_message 1 (Message.mk false (some (Guild.mk [])) true "<@1> hi".data)
        (CompletionOutcome.success (some (List.replicate 2500 'a')))
      = [Action.completeCall [Turn.mk Role.system system_prompt,
           Turn.mk Role.user (deriveQuestion 1 "<@1> hi".data)],
         Action.reply ((List.replicate 2500 'a').take 1996 ++ truncationMarker)]
      ∧ ((List.replicate 2500 'a').take 1996 ++ truncationMarker).length = 2098
      ∧ truncationMarker.length = 102
      ∧ 2000 < 2098 := by
  have hm : truncationMarker.length = 102 := by decide
  have hlen : (List.replicate 2500 'a').length = 2500 :=
    List.length_replicate 2500 'a'
  refine ⟨?_, ?_, hm, by norm_num⟩
  · have hq : deriveQuestion 1 "<@1> hi".data ≠ [] := by decide
    have hne := list_isEmpty_false _ hq
    have hon : isOnlineQuery (deriveQuestion 1 "<@1> hi".data) = false := by decide
    have hnil : List.replicate 2500 'a' ≠ [] := by
      intro hcon
      have hcl := congrArg List.length hcon
      rw [hlen] at hcl
      exact absurd hcl (by norm_num)
    have hrep := list_isEmpty_false _ hnil
    generalize hR : List.replicate 2500 'a' = R at hlen hrep ⊢
    simp [on_message, hne, hon, hrep, hlen, max_length]
  · rw [List.length_append, List.length_take, hlen, hm]
    omega

example : pyReplace "abcabc".data "bc".data "X".data = "aXaX".data := by decide

example : deriveQuestion 1 "<@1> hi".data = "hi".data := by decide

example : deriveQuestion 1 " <@1>x<@!1> y".data = "x y".data := by decide

example : isOnlineQuery "Who's Online today".data = true := by decide

end KadenBot
